import Mathlib

/-!
Shallow embedding of the vocabulary-analysis web application (src/app.py):
the curriculum text parser, the prompt-template store with its active-template
setting, the analysis cache-or-generate workflow with its text cleanup, and
the on-disk audio cache.  External collaborators (the SQLite engine, the
text-generation and speech-synthesis services, the filesystem) are modelled
as explicit state and outcome parameters.
-/

namespace VocabApp

/-- ASCII fragment of Python's whitespace predicate, shared by `str.strip`
and the regex class `\s` (space, tab, newline, carriage return, vertical
tab, form feed). -/
def pyIsSpace (c : Char) : Bool :=
  c = ' ' || c = '\t' || c = '\n' || c = '\r' || c = '\x0b' || c = '\x0c'

/-- Python `str.strip()` on a character list: drop whitespace from both ends. -/
def pyStripL (l : List Char) : List Char :=
  ((l.dropWhile pyIsSpace).reverse.dropWhile pyIsSpace).reverse

/-- Python `str.strip()`. -/
def pyStrip (s : String) : String :=
  (pyStripL s.toList).asString

/-- Python `line.startswith(p)`. -/
def startswith (line p : String) : Bool :=
  p.toList.isPrefixOf line.toList

/-- Split a character list on newline characters.  `"a\nb\n".readlines()`
yields `["a\n", "b\n"]` and each line is then stripped; splitting on `'\n'`
yields `["a", "b", ""]`, which the parser treats identically because the
trailing empty line is blank and skipped. -/
def splitNl : List Char → List (List Char)
  | [] => [[]]
  | c :: rest =>
    let r := splitNl rest
    if c = '\n' then [] :: r
    else (c :: r.headD []) :: r.tail

/-- A curriculum unit: `{'title': ..., 'groups': [...]}` in app.py. -/
structure VocabUnit where
  title : String
  groups : List (List String)
deriving DecidableEq, Repr

/-- The loop state of `parse_vocabulary_file`: the accumulated `units`,
the open `current_unit` and `current_group` (Python `None` = `Option.none`),
and the `previous_line` slot.  `previous_line` is only ever assigned a
stripped non-blank line, so Python's truthiness test on it coincides with
the `Option` test; a unit dict and a non-`None` group list are always
truthy in the source. -/
structure ParseState where
  units : List VocabUnit
  current_unit : Option VocabUnit
  current_group : Option (List String)
  previous_line : Option String
deriving DecidableEq, Repr

def initParseState : ParseState := ⟨[], none, none, none⟩

/-- One iteration of the `for line in lines` loop of `parse_vocabulary_file`. -/
def parseStep (s : ParseState) (rawLine : String) : ParseState :=
  let line := pyStrip rawLine
  if line = "" then s
  else if startswith line "===" then
    { units := s.units ++ s.current_unit.toList
      current_unit := some ⟨"", []⟩
      current_group := s.current_group
      previous_line := none }
  else if startswith line "+++" then
    match s.current_unit, s.previous_line with
    | some u, some p =>
      { s with current_unit := some ⟨p, u.groups⟩, previous_line := none }
    | _, _ => s
  else if startswith line "---" then
    let s1 := match s.current_group, s.current_unit with
      | some g, some u =>
        { s with current_unit := some ⟨u.title, u.groups ++ [g]⟩ }
      | _, _ => s
    { s1 with current_group := some [] }
  else
    let s1 := { s with previous_line := some line }
    match s.current_group, s.current_unit with
    | some g, some u =>
      if u.title ≠ "" then { s1 with current_group := some (g ++ [line]) }
      else s1
    | _, _ => s1

/-- The end-of-input flush of `parse_vocabulary_file`: append the open group
to the open unit, then append the open unit to the result. -/
def finishParse (s : ParseState) : List VocabUnit :=
  let s1 := match s.current_group, s.current_unit with
    | some g, some u =>
      { s with current_unit := some (⟨u.title, u.groups ++ [g]⟩ : VocabUnit) }
    | _, _ => s
  s1.units ++ s1.current_unit.toList

/-- `parse_vocabulary_file` applied to the lines of an existing file. -/
def parse_vocabulary_lines (lines : List String) : List VocabUnit :=
  finishParse (lines.foldl parseStep initParseState)

/-- `parse_vocabulary_file` on a file: `exists_` models `os.path.exists`;
a missing file yields `[]`, otherwise the file's content is read and
split into lines. -/
def parse_vocabulary_file (exists_ : Bool) (content : String) : List VocabUnit :=
  if exists_ then
    parse_vocabulary_lines ((splitNl content.toList).map List.asString)
  else []

/-! ### Generation post-processing cleanup

`get_word_analysis` post-processes the generated text with

  `re.sub(r'^好的，这是对.*?的词源分析：\s*', '', text, flags=re.IGNORECASE)`
  `re.sub(r'^#\s*.*\s*', '', text).strip()`

Both patterns are anchored at the start of the string (no MULTILINE flag),
so each substitution removes at most one leftmost match.  `.` does not match
a newline; `\s*` does.  The lazy `.*?` stops at the earliest occurrence of
the closing literal on the same line; the greedy pieces of the second
pattern each take their maximal run (every later piece is nullable, so no
backtracking occurs).  IGNORECASE is irrelevant: the pattern's literals are
caseless CJK characters and punctuation. -/

/-- The opening literal of the preamble pattern, `好的，这是对`. -/
def preambleHead : List Char := "好的，这是对".toList

/-- The closing literal of the preamble pattern, `的词源分析：`. -/
def preambleTail : List Char := "的词源分析：".toList

/-- Scan for the earliest position where `preambleTail` begins, crossing only
non-newline characters (the lazy `.*?`); return the remainder after the
literal, or `none` when a newline or the end is reached first. -/
def findPreambleTail : List Char → Option (List Char)
  | [] => none
  | c :: rest =>
    if preambleTail.isPrefixOf (c :: rest) then
      some ((c :: rest).drop preambleTail.length)
    else if c = '\n' then none
    else findPreambleTail rest

/-- `re.sub(r'^好的，这是对.*?的词源分析：\s*', '', text)`: when the whole
pattern matches at the start, the match (including the trailing whitespace
run) is removed; otherwise the text is unchanged. -/
def preambleSub (cs : List Char) : List Char :=
  if preambleHead.isPrefixOf cs then
    match findPreambleTail (cs.drop preambleHead.length) with
    | some rest => rest.dropWhile pyIsSpace
    | none => cs
  else cs

/-- `re.sub(r'^#\s*.*\s*', '', text)`: if the text starts with `#`, remove
the `#`, a maximal whitespace run, a maximal non-newline run, and a second
maximal whitespace run; otherwise the text is unchanged. -/
def headingSub (cs : List Char) : List Char :=
  match cs with
  | [] => []
  | c :: rest =>
    if c = '#' then
      ((rest.dropWhile pyIsSpace).dropWhile (fun x => x ≠ '\n')).dropWhile pyIsSpace
    else c :: rest

/-- The full cleanup of `get_word_analysis` (app.py lines 123-124):
preamble strip, then heading strip, then `str.strip()`. -/
def cleanupL (cs : List Char) : List Char :=
  pyStripL (headingSub (preambleSub cs))

/-- The cleanup on strings. -/
def cleanup (s : String) : String :=
  (cleanupL s.toList).asString

/-! ### Analysis cache-or-generate workflow -/

/-- `MAX_RETRIES` (app.py line 37). -/
def MAX_RETRIES : Nat := 3

/-- `TIMEOUT` in seconds (app.py line 38). -/
def TIMEOUT : Nat := 60

/-- Error message returned when the retry budget is exhausted. -/
def retriesMsg : String := "API request failed after 3 retries."

/-- Error message returned when no API key is configured. -/
def noKeyMsg : String := "OPENAI_API_KEY is not set."

/-- Environment of one `get_word_analysis` call: the configured credential
and, for each attempted OpenAI request, the oracle outcome — `some raw`
when the service returns `raw` as the message content, `none` when the
request raises.  Attempts beyond the listed ones are treated as raising. -/
structure AnalysisEnv where
  apiKey : Option String
  attempts : List (Option String)
deriving DecidableEq, Repr

/-- The `for _ in range(MAX_RETRIES)` loop: each attempt either succeeds
(cleanup is applied and the loop returns) or raises (sleep and retry).
The returned `Nat` counts the external requests actually issued. -/
def genLoop : Nat → List (Option String) → Except String String × Nat
  | 0, _ => (.error retriesMsg, 0)
  | n + 1, attempts =>
    match attempts.headD none with
    | some raw => (.ok (cleanup raw), 1)
    | none =>
      let r := genLoop n attempts.tail
      (r.1, r.2 + 1)

/-- `get_word_analysis(word, template_content, force_reanalyze)` against a
`word_cache` table (a map from word to stored analysis) and an environment.
Returns the `(analysis, error)` pair — exactly one side is set in the
source, so it is an `Except` — together with the number of external
generation requests issued. -/
def get_word_analysis (word template_content : String) (force_reanalyze : Bool)
    (cache : String → Option String) (env : AnalysisEnv) :
    Except String String × Nat :=
  match (if force_reanalyze then none else cache word) with
  | some a => (.ok a, 0)
  | none =>
    match env.apiKey with
    | none => (.error noKeyMsg, 0)
    | some _ => genLoop MAX_RETRIES env.attempts

/-! ### Routes `/analyze` and `/reanalyze`

The database state visible to these routes is the `word_cache` table and
the template store (`prompt_templates` plus the `app_settings` singleton).
Markdown-to-HTML rendering of the returned analysis is presentation and is
not modelled: the routes below return the markdown text that is handed to
the renderer. -/

/-- A row of `prompt_templates`. -/
structure PromptTemplate where
  id : Nat
  name : String
  content : String
deriving DecidableEq, Repr

/-- The template tables: the `prompt_templates` rows, the next SQLite
rowid, and `app_settings.active_template_id` (a bare integer column — no
enforced foreign key). -/
structure StoreState where
  templates : List PromptTemplate
  nextId : Nat
  active_template_id : Nat
deriving DecidableEq, Repr

/-- The ids of the stored templates. -/
def idsOf (s : StoreState) : List Nat := s.templates.map (fun t => t.id)

/-- `GET /api/templates/active`: the join of `prompt_templates` with
`app_settings.active_template_id`. -/
def get_active_template (s : StoreState) : Option PromptTemplate :=
  s.templates.find? (fun t => t.id = s.active_template_id)

/-- Full database state for the analysis routes. -/
structure DbState where
  word_cache : String → Option String
  store : StoreState

/-- `INSERT OR REPLACE INTO word_cache (word, analysis) VALUES (?, ?)`. -/
def cacheInsert (cache : String → Option String) (word text : String) :
    String → Option String :=
  fun w => if w = word then some text else cache w

/-- Outcome of an analysis route: the analysis text, or an error message
with its HTTP status. -/
inductive RouteResult where
  | ok (analysis : String)
  | err (msg : String) (status : Nat)
deriving DecidableEq, Repr

/-- Error message of the analysis routes when the active template is
missing. -/
def noTemplateMsg : String := "No active template found."

/-- `POST /analyze`: cache lookup, active-template lookup,
`get_word_analysis`, and on success an insert-or-replace into
`word_cache`.  Returns the route outcome, the `word_cache` table after the
request, and the number of external generation requests issued. -/
def analyze (word : String) (db : DbState) (env : AnalysisEnv) :
    RouteResult × (String → Option String) × Nat :=
  match db.word_cache word with
  | some a => (.ok a, db.word_cache, 0)
  | none =>
    match get_active_template db.store with
    | none => (.err noTemplateMsg 400, db.word_cache, 0)
    | some tpl =>
      match get_word_analysis word tpl.content false db.word_cache env with
      | (.error e, k) => (.err e 500, db.word_cache, k)
      | (.ok text, k) => (.ok text, cacheInsert db.word_cache word text, k)

/-- `POST /reanalyze`: like `/analyze` but with `force_reanalyze=True` and
no route-level cache check. -/
def reanalyze (word : String) (db : DbState) (env : AnalysisEnv) :
    RouteResult × (String → Option String) × Nat :=
  match get_active_template db.store with
  | none => (.err noTemplateMsg 400, db.word_cache, 0)
  | some tpl =>
    match get_word_analysis word tpl.content true db.word_cache env with
    | (.error e, k) => (.err e 500, db.word_cache, k)
    | (.ok text, k) => (.ok text, cacheInsert db.word_cache word text, k)

/-! ### Template CRUD and the active-template setting -/

/-- Error message of `delete_template` on the last template. -/
def lastTemplateMsg : String := "Cannot delete the last template"

/-- Error message on a `name` unique-constraint violation. -/
def duplicateNameMsg : String := "A template with this name already exists"

/-- `POST /api/templates`: insert a row; a `name` collision raises
`IntegrityError` (HTTP 409) and leaves the table unchanged.  SQLite
assigns `lastrowid = nextId`. -/
def create_template (name content : String) (s : StoreState) :
    Except String Nat × StoreState :=
  if s.templates.any (fun t => t.name = name) then (.error duplicateNameMsg, s)
  else
    (.ok s.nextId,
     { templates := s.templates ++ [⟨s.nextId, name, content⟩]
       nextId := s.nextId + 1
       active_template_id := s.active_template_id })

/-- `PUT /api/templates/<id>`: update the matching row; if no row matches,
the statement changes nothing and succeeds; if the new name collides with a
different row's name, the statement fails atomically (HTTP 409). -/
def update_template (i : Nat) (name content : String) (s : StoreState) :
    Except String Unit × StoreState :=
  if s.templates.all (fun t => t.id ≠ i) then (.ok (), s)
  else if s.templates.any (fun t => t.id ≠ i && t.name = name) then
    (.error duplicateNameMsg, s)
  else
    (.ok (),
     { s with templates := s.templates.map (fun t =>
        if t.id = i then ⟨t.id, name, content⟩ else t) })

/-- `DELETE /api/templates/<id>`: refuse when at most one template remains;
otherwise, if the deleted id is the active one, repoint
`active_template_id` to the lowest remaining id (`ORDER BY id LIMIT 1`),
then delete the row.  The `none` branch of the repoint is unreachable when
ids are distinct (the table's PRIMARY KEY): the Python would raise there. -/
def delete_template (i : Nat) (s : StoreState) :
    Except String Unit × StoreState :=
  if s.templates.length ≤ 1 then (.error lastTemplateMsg, s)
  else
    (.ok (),
     { templates := s.templates.filter (fun t => t.id ≠ i)
       nextId := s.nextId
       active_template_id :=
        if s.active_template_id = i then
          match ((s.templates.filter (fun t => t.id ≠ i)).map (fun t => t.id)).min? with
          | some m => m
          | none => s.active_template_id
        else s.active_template_id })

/-- `POST /api/templates/active`: set `active_template_id` with no check
that the id names an existing row. -/
def set_active_template (i : Nat) (s : StoreState) : StoreState :=
  { s with active_template_id := i }

/-- A template operation, as issued through the API routes. -/
inductive TemplateOp where
  | create (name content : String)
  | update (i : Nat) (name content : String)
  | delete (i : Nat)
  | setActive (i : Nat)
deriving DecidableEq, Repr

/-- The state transition of one operation (its result value discarded). -/
def applyOp (s : StoreState) : TemplateOp → StoreState
  | .create name content => (create_template name content s).2
  | .update i name content => (update_template i name content s).2
  | .delete i => (delete_template i s).2
  | .setActive i => set_active_template i s

/-- A sequence of operations applied in order. -/
def applyOps (s : StoreState) (ops : List TemplateOp) : StoreState :=
  ops.foldl applyOp s

/-- `initialize_app` on a fresh database: one `Default` template (content
from `word_template.md`, or the fallback literal) with SQLite rowid 1, and
`app_settings` row `(1, 1)` pointing at it. -/
def initialize_app (default_content : String) : StoreState :=
  { templates := [⟨1, "Default", default_content⟩]
    nextId := 2
    active_template_id := 1 }

/-- A `setActive` call is valid when its id names an existing template;
every other operation is unconditionally valid.  (The route itself performs
no such check — see the C1 counterexample.) -/
def validOp (s : StoreState) : TemplateOp → Bool
  | .setActive i => s.templates.any (fun t => t.id = i)
  | _ => true

/-- Every operation of a sequence is valid in the state where it runs. -/
def validSeq : StoreState → List TemplateOp → Bool
  | _, [] => true
  | s, op :: rest => validOp s op && validSeq (applyOp s op) rest

/-- Structural well-formedness of the template tables: the table is
non-empty, ids are distinct (PRIMARY KEY), and every id is below the next
SQLite rowid. -/
def StoreWF (s : StoreState) : Prop :=
  s.templates ≠ [] ∧ (idsOf s).Nodup ∧ ∀ t ∈ s.templates, t.id < s.nextId

/-! ### Route `/tts` and the audio cache -/

/-- `AUDIO_CACHE_DIR` (app.py line 36). -/
def AUDIO_CACHE_DIR : String := "static/audio_cache"

/-- The cache filename: the word's alphanumeric characters concatenated,
suffixed with `.mp3` (`"".join(c for c in word if c.isalnum()) + '.mp3'`).
`Char.isAlphanum` is the ASCII fragment of Python's `str.isalnum`. -/
def ttsFilename (word : String) : String :=
  (word.toList.filter Char.isAlphanum).asString ++ ".mp3"

/-- `os.path.join(AUDIO_CACHE_DIR, filename)`. -/
def ttsFilepath (word : String) : String :=
  AUDIO_CACHE_DIR ++ "/" ++ ttsFilename word

/-- Oracle outcome of the speech-synthesis call and the streaming write.
`ok bytes` is a fully successful synthesis; `failBeforeWrite` is a failure
before any byte reaches the file (e.g. the request itself raises);
`failDuringWrite written` is a failure after `stream_to_file` has already
written `written` to the target path — the write streams chunks directly
to the final path, per the source. -/
inductive SynthOutcome where
  | ok (bytes : List Nat)
  | failBeforeWrite
  | failDuringWrite (written : List Nat)
deriving DecidableEq, Repr

/-- Outcome of the `/tts` route: a served audio file or an error. -/
inductive TtsResult where
  | file (bytes : List Nat)
  | err (msg : String) (status : Nat)
deriving DecidableEq, Repr

/-- Write `bytes` at `path` in the modelled filesystem. -/
def fsWrite (fs : String → Option (List Nat)) (path : String)
    (bytes : List Nat) : String → Option (List Nat) :=
  fun p => if p = path then some bytes else fs p

/-- `GET /tts`: refuse an empty word (400) or a missing credential (503);
serve the cached file when it exists; otherwise synthesize and stream to
the cache path.  The `except` handler only logs and returns 500 — it does
not remove a file the interrupted stream already created.  Returns the
route outcome and the filesystem after the request. -/
def tts (word : String) (apiKey : Option String)
    (fs : String → Option (List Nat)) (outcome : SynthOutcome) :
    TtsResult × (String → Option (List Nat)) :=
  if word = "" then (.err "No word provided" 400, fs)
  else
    match apiKey with
    | none => (.err "OpenAI TTS service not configured" 503, fs)
    | some _ =>
      match fs (ttsFilepath word) with
      | some bytes => (.file bytes, fs)
      | none =>
        match outcome with
        | .ok bytes =>
          (.file bytes, fsWrite fs (ttsFilepath word) bytes)
        | .failBeforeWrite => (.err "TTS generation failed" 500, fs)
        | .failDuringWrite written =>
          (.err "TTS generation failed" 500, fsWrite fs (ttsFilepath word) written)

/-! ## Supporting lemmas -/

theorem dropWhile_self (p : Char → Bool) (l : List Char) :
    (l.dropWhile p).dropWhile p = l.dropWhile p := by
  induction l with
  | nil => rfl
  | cons a t ih =>
    by_cases h : p a = true
    · rw [List.dropWhile_cons, if_pos h]
      exact ih
    · rw [List.dropWhile_cons, if_neg h, List.dropWhile_cons, if_neg h]

theorem dropWhile_eq_self_of_prefix (p : Char → Bool) (l x w : List Char)
    (h : l.dropWhile p = x ++ w) : x.dropWhile p = x := by
  cases x with
  | nil => rfl
  | cons a t =>
    have hself := dropWhile_self p l
    rw [h, List.cons_append] at hself
    by_cases ha : p a = true
    · rw [List.dropWhile_cons, if_pos ha] at hself
      have hlen := congrArg List.length hself
      have hle : ((t ++ w).dropWhile p).length ≤ (t ++ w).length :=
        (List.dropWhile_sublist p).length_le
      simp only [List.length_cons] at hlen
      omega
    · rw [List.dropWhile_cons, if_neg ha]

theorem dropWhile_eq_pyStripL_append (l : List Char) :
    l.dropWhile pyIsSpace =
      pyStripL l ++ ((l.dropWhile pyIsSpace).reverse.takeWhile pyIsSpace).reverse := by
  have h := congrArg List.reverse
    (List.takeWhile_append_dropWhile pyIsSpace (l.dropWhile pyIsSpace).reverse)
  rw [List.reverse_append, List.reverse_reverse] at h
  unfold pyStripL
  exact h.symm

theorem dropWhile_pyStripL (l : List Char) :
    (pyStripL l).dropWhile pyIsSpace = pyStripL l :=
  dropWhile_eq_self_of_prefix pyIsSpace l (pyStripL l) _
    (dropWhile_eq_pyStripL_append l)

theorem pyStripL_idem (l : List Char) : pyStripL (pyStripL l) = pyStripL l := by
  have h1 : pyStripL (pyStripL l) =
      (((pyStripL l).dropWhile pyIsSpace).reverse.dropWhile pyIsSpace).reverse := rfl
  rw [h1, dropWhile_pyStripL l]
  have h2 : (pyStripL l).reverse.dropWhile pyIsSpace = (pyStripL l).reverse := by
    have h3 : (pyStripL l).reverse =
        (l.dropWhile pyIsSpace).reverse.dropWhile pyIsSpace := by
      unfold pyStripL
      rw [List.reverse_reverse]
    rw [h3, dropWhile_self]
  rw [h2, List.reverse_reverse]

theorem idsOf_filter (i : Nat) (l : List PromptTemplate) :
    (l.filter (fun t => t.id ≠ i)).map (fun t => t.id) =
      (l.map (fun t => t.id)).filter (fun x => x ≠ i) := by
  induction l with
  | nil => rfl
  | cons a t ih =>
    simp only [List.filter_cons, List.map_cons]
    by_cases h : a.id = i
    · have c1 : ¬ (decide (a.id ≠ i) = true) := by simp [h]
      rw [if_neg c1, if_neg c1]
      exact ih
    · have c1 : decide (a.id ≠ i) = true := by simp [h]
      rw [if_pos c1, if_pos c1, List.map_cons, ih]

theorem filter_ne_nonempty (i : Nat) (l : List PromptTemplate)
    (hlen : 2 ≤ l.length) (hnd : (l.map (fun t => t.id)).Nodup) :
    l.filter (fun t => t.id ≠ i) ≠ [] := by
  cases l with
  | nil => simp at hlen
  | cons a l2 =>
    cases l2 with
    | nil => simp at hlen
    | cons b t =>
      have h0 : (a.id :: b.id :: t.map (fun x => x.id)).Nodup := by
        simpa using hnd
      have hnotin : a.id ∉ b.id :: t.map (fun x => x.id) :=
        (List.nodup_cons.mp h0).1
      have hab : a.id ≠ b.id := fun he => hnotin (he ▸ List.mem_cons_self _ _)
      by_cases ha : a.id = i
      · have hb : ¬ b.id = i := fun hbi => hab (by rw [ha, hbi])
        have hmemb : b ∈ (a :: b :: t).filter (fun t2 => t2.id ≠ i) :=
          List.mem_filter.mpr
            ⟨List.mem_cons_of_mem _ (List.mem_cons_self _ _), by simp [hb]⟩
        exact List.ne_nil_of_mem hmemb
      · have hmema : a ∈ (a :: b :: t).filter (fun t2 => t2.id ≠ i) :=
          List.mem_filter.mpr ⟨List.mem_cons_self _ _, by simp [ha]⟩
        exact List.ne_nil_of_mem hmema

theorem min?_isSome_of_ne_nil (l : List Nat) (h : l ≠ []) :
    ∃ m, l.min? = some m ∧ m ∈ l := by
  have h1 : (l.min?).isSome := by
    cases l with
    | nil => simp at h
    | cons a t => simp [List.min?]
  obtain ⟨m, hm⟩ := Option.isSome_iff_exists.mp h1
  refine ⟨m, hm, List.min?_mem ?_ hm⟩
  intro a b
  rcases Nat.le_total a b with hab | hab
  · left
    exact Nat.min_eq_left hab
  · right
    exact Nat.min_eq_right hab

theorem update_ids (i : Nat) (name content : String) (l : List PromptTemplate) :
    (l.map (fun t =>
      if t.id = i then (⟨t.id, name, content⟩ : PromptTemplate) else t)).map
        (fun t => t.id) = l.map (fun t => t.id) := by
  rw [List.map_map]
  apply List.map_congr_left
  intro t ht
  dsimp only [Function.comp]
  by_cases hti : t.id = i
  · rw [if_pos hti]
  · rw [if_neg hti]

theorem storeWF_applyOp (s : StoreState) (op : TemplateOp) (h : StoreWF s) :
    StoreWF (applyOp s op) := by
  obtain ⟨h1, h2, h3⟩ := h
  cases op with
  | create name content =>
    show StoreWF (create_template name content s).2
    unfold create_template
    by_cases hd : s.templates.any (fun t => t.name = name) = true
    · rw [if_pos hd]
      exact ⟨h1, h2, h3⟩
    · rw [if_neg hd]
      refine ⟨by simp, ?_, ?_⟩
      · show ((s.templates ++ [(⟨s.nextId, name, content⟩ : PromptTemplate)]).map
          (fun t => t.id)).Nodup
        rw [List.map_append]
        rw [List.nodup_append]
        refine ⟨h2, List.nodup_singleton _, ?_⟩
        intro x hx hx2
        simp only [List.map_cons, List.map_nil, List.mem_singleton] at hx2
        obtain ⟨t, ht, hid⟩ := List.mem_map.mp hx
        have hlt : t.id < s.nextId := h3 t ht
        rw [hid, hx2] at hlt
        exact absurd hlt (lt_irrefl _)
      · intro t ht
        rcases List.mem_append.mp ht with hl | hr
        · exact Nat.lt_succ_of_lt (h3 t hl)
        · simp only [List.mem_singleton] at hr
          rw [hr]
          exact Nat.lt_succ_self _
  | update i name content =>
    show StoreWF (update_template i name content s).2
    unfold update_template
    by_cases hno : s.templates.all (fun t => t.id ≠ i) = true
    · rw [if_pos hno]
      exact ⟨h1, h2, h3⟩
    · rw [if_neg hno]
      by_cases hdup : s.templates.any (fun t => t.id ≠ i && t.name = name) = true
      · rw [if_pos hdup]
        exact ⟨h1, h2, h3⟩
      · rw [if_neg hdup]
        refine ⟨?_, ?_, ?_⟩
        · simp [h1]
        · show ((s.templates.map (fun t =>
            if t.id = i then (⟨t.id, name, content⟩ : PromptTemplate) else t)).map
              (fun t => t.id)).Nodup
          rw [update_ids]
          exact h2
        · intro t' ht'
          obtain ⟨t, ht, hft⟩ := List.mem_map.mp ht'
          rw [← hft]
          by_cases hti : t.id = i
          · rw [if_pos hti]
            exact h3 t ht
          · rw [if_neg hti]
            exact h3 t ht
  | delete i =>
    show StoreWF (delete_template i s).2
    unfold delete_template
    by_cases hl : s.templates.length ≤ 1
    · rw [if_pos hl]
      exact ⟨h1, h2, h3⟩
    · rw [if_neg hl]
      refine ⟨?_, ?_, ?_⟩
      · exact filter_ne_nonempty i s.templates (by omega) h2
      · show ((s.templates.filter (fun t => t.id ≠ i)).map (fun t => t.id)).Nodup
        rw [idsOf_filter]
        exact h2.sublist (List.filter_sublist _)
      · intro t ht
        exact h3 t (List.mem_filter.mp ht).1
  | setActive i =>
    exact ⟨h1, h2, h3⟩

theorem active_mem_applyOp (s : StoreState) (op : TemplateOp)
    (hwf : StoreWF s) (hmem : s.active_template_id ∈ idsOf s)
    (hv : validOp s op = true) :
    (applyOp s op).active_template_id ∈ idsOf (applyOp s op) := by
  obtain ⟨h1, h2, h3⟩ := hwf
  cases op with
  | create name content =>
    show (create_template name content s).2.active_template_id ∈
      idsOf (create_template name content s).2
    unfold create_template
    by_cases hd : s.templates.any (fun t => t.name = name) = true
    · rw [if_pos hd]
      exact hmem
    · rw [if_neg hd]
      show s.active_template_id ∈
        (s.templates ++ [(⟨s.nextId, name, content⟩ : PromptTemplate)]).map (fun t => t.id)
      rw [List.map_append]
      exact List.mem_append_left _ hmem
  | update i name content =>
    show (update_template i name content s).2.active_template_id ∈
      idsOf (update_template i name content s).2
    unfold update_template
    by_cases hno : s.templates.all (fun t => t.id ≠ i) = true
    · rw [if_pos hno]
      exact hmem
    · rw [if_neg hno]
      by_cases hdup : s.templates.any (fun t => t.id ≠ i && t.name = name) = true
      · rw [if_pos hdup]
        exact hmem
      · rw [if_neg hdup]
        show s.active_template_id ∈
          (s.templates.map (fun t =>
            if t.id = i then (⟨t.id, name, content⟩ : PromptTemplate) else t)).map
              (fun t => t.id)
        rw [update_ids]
        exact hmem
  | delete i =>
    show (delete_template i s).2.active_template_id ∈ idsOf (delete_template i s).2
    unfold delete_template
    by_cases hl : s.templates.length ≤ 1
    · rw [if_pos hl]
      exact hmem
    · rw [if_neg hl]
      have hne2 : (s.templates.filter (fun t => t.id ≠ i)).map (fun t => t.id) ≠ [] := by
        have hne := filter_ne_nonempty i s.templates (by omega) h2
        simpa using hne
      dsimp only
      by_cases hai : s.active_template_id = i
      · obtain ⟨m, hm, hmm⟩ := min?_isSome_of_ne_nil _ hne2
        rw [if_pos hai, hm]
        exact hmm
      · rw [if_neg hai]
        obtain ⟨t, ht, hid⟩ := List.mem_map.mp hmem
        apply List.mem_map.mpr
        refine ⟨t, List.mem_filter.mpr ⟨ht, ?_⟩, hid⟩
        rw [hid]
        simp [hai]
  | setActive i =>
    show i ∈ idsOf s
    obtain ⟨t, ht, hti⟩ := List.any_eq_true.mp hv
    exact List.mem_map.mpr ⟨t, ht, by simpa using hti⟩

theorem storeInv_applyOps (ops : List TemplateOp) (s : StoreState)
    (hwf : StoreWF s) :
    StoreWF (applyOps s ops) ∧
    (s.active_template_id ∈ idsOf s → validSeq s ops = true →
      (applyOps s ops).active_template_id ∈ idsOf (applyOps s ops)) := by
  induction ops generalizing s with
  | nil => exact ⟨hwf, fun h _ => h⟩
  | cons op rest ih =>
    have hwf2 := storeWF_applyOp s op hwf
    have hrec := ih (applyOp s op) hwf2
    refine ⟨hrec.1, fun hmem hv => ?_⟩
    rw [validSeq, Bool.and_eq_true] at hv
    exact hrec.2 (active_mem_applyOp s op hwf hmem hv.1) hv.2

theorem storeWF_initialize_app (dc : String) : StoreWF (initialize_app dc) := by
  refine ⟨by simp [initialize_app], by simp [initialize_app, idsOf], ?_⟩
  intro t ht
  simp only [initialize_app, List.mem_singleton] at ht
  rw [ht]
  exact Nat.lt_succ_self _


theorem startswith_toList_cons (line p : String) (c : Char) (cs : List Char)
    (hp : p.toList = c :: cs) (h : startswith line p = true) :
    ∃ t, line.toList = c :: t := by
  unfold startswith at h
  rw [hp] at h
  cases hl : line.toList with
  | nil =>
    rw [hl] at h
    simp [List.isPrefixOf] at h
  | cons d t =>
    rw [hl] at h
    simp only [List.isPrefixOf, Bool.and_eq_true, beq_iff_eq] at h
    exact ⟨t, by rw [h.1]⟩

theorem ne_empty_of_startswith (line p : String) (c : Char) (cs : List Char)
    (hp : p.toList = c :: cs) (h : startswith line p = true) : line ≠ "" := by
  obtain ⟨t, ht⟩ := startswith_toList_cons line p c cs hp h
  intro he
  rw [he] at ht
  have hnil : ("" : String).toList = [] := rfl
  rw [hnil] at ht
  exact List.noConfusion ht

theorem dash_not_marker (line : String) (t : List Char)
    (hts : line.toList = '-' :: t) :
    startswith line "===" = false ∧ startswith line "+++" = false := by
  unfold startswith
  rw [hts]
  constructor
  · rfl
  · rfl

/-! ## Claim theorems -/

/-- C8: parsing the lines `"=== "`, `"Title A"`, `"+++"`, `"line1"`,
`"line2"`, `"---"`, `"lineX"` yields exactly one unit titled `"Title A"`
with exactly one group `["lineX"]`; `line1` and `line2` are in no group. -/
theorem claimC8_parse_scenario :
    parse_vocabulary_file true "=== \nTitle A\n+++\nline1\nline2\n---\nlineX\n" =
      [⟨"Title A", [["lineX"]]⟩] := by decide

/-- C2 counterexample: the cleanup is not idempotent.  On
`"# a\n# b\nc"` one application strips only the first heading line,
leaving `"# b\nc"`, and a second application strips the next one. -/
theorem claimC2_counterexample :
    cleanup "# a\n# b\nc" = "# b\nc" ∧
    cleanup (cleanup "# a\n# b\nc") = "c" ∧
    cleanup (cleanup "# a\n# b\nc") ≠ cleanup "# a\n# b\nc" := by decide

/-- C2 (amended): the cleanup is idempotent on every input whose cleaned
result does not itself start with `#` or with the localized preamble
literal (a second application then strips nothing further). -/
theorem claimC2_amended (s : String)
    (h1 : preambleHead.isPrefixOf (cleanup s).toList = false)
    (h2 : (cleanup s).toList.head? ≠ some '#') :
    cleanup (cleanup s) = cleanup s := by
  have hy : (cleanup s).toList = cleanupL s.toList := rfl
  rw [hy] at h1 h2
  have hp : preambleSub (cleanupL s.toList) = cleanupL s.toList := by
    unfold preambleSub
    rw [h1]
    simp
  have hh : headingSub (cleanupL s.toList) = cleanupL s.toList := by
    cases hcons : cleanupL s.toList with
    | nil => rfl
    | cons c t =>
      have hc : ¬ c = '#' := by
        intro hEq
        rw [hcons, hEq] at h2
        exact h2 rfl
      simp [headingSub, hc]
  have hs : pyStripL (cleanupL s.toList) = cleanupL s.toList := by
    show pyStripL (pyStripL (headingSub (preambleSub s.toList))) = _
    rw [pyStripL_idem]
    rfl
  show (cleanupL ((cleanupL s.toList).asString).toList).asString = _
  have ht : ((cleanupL s.toList).asString).toList = cleanupL s.toList := rfl
  rw [ht]
  show (pyStripL (headingSub (preambleSub (cleanupL s.toList)))).asString = _
  rw [hp, hh, hs]
  rfl

/-- Witness for C2 (amended) at the input `"x hello\n world"`. -/
theorem claimC2_amended_witness :
    preambleHead.isPrefixOf (cleanup "x hello\n world").toList = false ∧
    (cleanup "x hello\n world").toList.head? ≠ some '#' ∧
    cleanup (cleanup "x hello\n world") = cleanup "x hello\n world" :=
  ⟨by decide, by decide, claimC2_amended "x hello\n world" (by decide) (by decide)⟩

/-- C3: when generation fails, both analysis entry points propagate the
error and leave `word_cache` unchanged — on the `/analyze` path (reached
on a cache miss with an active template) and on the `/reanalyze` path. -/
theorem claimC3_error_no_write (word : String) (db : DbState) (env : AnalysisEnv)
    (e : String) (tpl : PromptTemplate) :
    (db.word_cache word = none →
      get_active_template db.store = some tpl →
      (get_word_analysis word tpl.content false db.word_cache env).1 = .error e →
      analyze word db env =
        (.err e 500, db.word_cache,
          (get_word_analysis word tpl.content false db.word_cache env).2)) ∧
    (get_active_template db.store = some tpl →
      (get_word_analysis word tpl.content true db.word_cache env).1 = .error e →
      reanalyze word db env =
        (.err e 500, db.word_cache,
          (get_word_analysis word tpl.content true db.word_cache env).2)) := by
  constructor
  · intro hmiss hact herr
    unfold analyze
    rw [hmiss, hact]
    dsimp only
    rcases hr : get_word_analysis word tpl.content false db.word_cache env with ⟨r1, r2⟩
    rw [hr] at herr
    simp only at herr
    subst herr
    rfl
  · intro hact herr
    unfold reanalyze
    rw [hact]
    dsimp only
    rcases hr : get_word_analysis word tpl.content true db.word_cache env with ⟨r1, r2⟩
    rw [hr] at herr
    simp only at herr
    subst herr
    rfl

/-- Witness for C3: an empty cache, a store whose active template exists,
a configured key, and three failing attempts. -/
theorem claimC3_error_no_write_witness :
    ((⟨fun _ => none, ⟨[⟨1, "Default", "T"⟩], 2, 1⟩⟩ : DbState).word_cache "w" = none) ∧
    (get_active_template (⟨fun _ => none, ⟨[⟨1, "Default", "T"⟩], 2, 1⟩⟩ : DbState).store =
      some ⟨1, "Default", "T"⟩) ∧
    ((get_word_analysis "w" "T" false
        (⟨fun _ => none, ⟨[⟨1, "Default", "T"⟩], 2, 1⟩⟩ : DbState).word_cache
        ⟨some "k", [none, none, none]⟩).1 = .error retriesMsg) ∧
    analyze "w" (⟨fun _ => none, ⟨[⟨1, "Default", "T"⟩], 2, 1⟩⟩ : DbState)
        ⟨some "k", [none, none, none]⟩ =
      (.err retriesMsg 500,
        (⟨fun _ => none, ⟨[⟨1, "Default", "T"⟩], 2, 1⟩⟩ : DbState).word_cache,
        (get_word_analysis "w" "T" false
          (⟨fun _ => none, ⟨[⟨1, "Default", "T"⟩], 2, 1⟩⟩ : DbState).word_cache
          ⟨some "k", [none, none, none]⟩).2) :=
  ⟨rfl, rfl, rfl,
    (claimC3_error_no_write "w" ⟨fun _ => none, ⟨[⟨1, "Default", "T"⟩], 2, 1⟩⟩
      ⟨some "k", [none, none, none]⟩ retriesMsg ⟨1, "Default", "T"⟩).1 rfl rfl rfl⟩

/-- C4: on a cache hit with `force=false`, `/analyze` returns the stored
text with no error, issues zero generation requests, and leaves the cache
unchanged; `get_word_analysis` likewise short-circuits for any template
content. -/
theorem claimC4_cache_hit (word t : String) (db : DbState) (env : AnalysisEnv)
    (h : db.word_cache word = some t) :
    analyze word db env = (.ok t, db.word_cache, 0) ∧
    ∀ tc : String, get_word_analysis word tc false db.word_cache env = (.ok t, 0) := by
  constructor
  · unfold analyze
    rw [h]
  · intro tc
    simp [get_word_analysis, h]

/-- Witness for C4: a cache holding `"w" ↦ "stored"`. -/
theorem claimC4_cache_hit_witness :
    ((⟨fun w => if w = "w" then some "stored" else none,
        ⟨[⟨1, "Default", "T"⟩], 2, 1⟩⟩ : DbState).word_cache "w" = some "stored") ∧
    analyze "w" (⟨fun w => if w = "w" then some "stored" else none,
        ⟨[⟨1, "Default", "T"⟩], 2, 1⟩⟩ : DbState) ⟨some "k", [some "fresh"]⟩ =
      (.ok "stored",
        (⟨fun w => if w = "w" then some "stored" else none,
          ⟨[⟨1, "Default", "T"⟩], 2, 1⟩⟩ : DbState).word_cache, 0) :=
  ⟨rfl,
    (claimC4_cache_hit "w" "stored"
      ⟨fun w => if w = "w" then some "stored" else none, ⟨[⟨1, "Default", "T"⟩], 2, 1⟩⟩
      ⟨some "k", [some "fresh"]⟩ rfl).1⟩

/-- C10: the credential check sits after the cache lookup — a cached word
is served with no error even when no API key is configured, while every
generate path (a cache miss, or `force_reanalyze=True`) then fails with
the missing-key error. -/
theorem claimC10_key_checked_after_cache (word tc t : String)
    (cache : String → Option String) (env : AnalysisEnv)
    (hkey : env.apiKey = none) (hc : cache word = some t) :
    get_word_analysis word tc false cache env = (.ok t, 0) ∧
    (∀ w2, cache w2 = none →
      get_word_analysis w2 tc false cache env = (.error noKeyMsg, 0)) ∧
    get_word_analysis word tc true cache env = (.error noKeyMsg, 0) := by
  refine ⟨?_, ?_, ?_⟩
  · simp [get_word_analysis, hc]
  · intro w2 h2
    simp [get_word_analysis, h2, hkey]
  · simp [get_word_analysis, hkey]

/-- Witness for C10: a keyless environment and a cache holding `"w"`. -/
theorem claimC10_key_checked_after_cache_witness :
    ((⟨none, []⟩ : AnalysisEnv).apiKey = none) ∧
    ((fun w => if w = "w" then some "stored" else none : String → Option String) "w" =
      some "stored") ∧
    get_word_analysis "w" "T" false
      (fun w => if w = "w" then some "stored" else none) ⟨none, []⟩ = (.ok "stored", 0) :=
  ⟨rfl, rfl,
    (claimC10_key_checked_after_cache "w" "T" "stored"
      (fun w => if w = "w" then some "stored" else none) ⟨none, []⟩ rfl rfl).1⟩

/-- C7: evaluation at the failing input.  With an empty audio cache and a
synthesis stream that fails after writing the byte `1`, the route returns
the 500 error but a partial file remains at the target cache path — the
`except` handler does not remove it. -/
theorem claimC7_partial_file_remains :
    (tts "cat" (some "k") (fun _ => none) (.failDuringWrite [1])).1 =
      .err "TTS generation failed" 500 ∧
    (tts "cat" (some "k") (fun _ => none) (.failDuringWrite [1])).2
      "static/audio_cache/cat.mp3" = some [1] := by
  constructor
  · rfl
  · rfl

/-- C1 counterexample: `set_active_template` performs no existence check,
so from the bootstrapped state `setActive 5` leaves the active setting
dangling and `getActive` resolves to nothing. -/
theorem claimC1_counterexample :
    get_active_template
      (applyOps (initialize_app "Please provide a default template.")
        [TemplateOp.setActive 5]) = none := by decide

/-- C1 (amended): after any sequence of create/update/delete/setActive
operations from the bootstrapped state in which every `setActive` call
names an id that exists at the time of the call, the active setting
resolves to an existing template row. -/
theorem claimC1_amended (default_content : String) (ops : List TemplateOp)
    (h : validSeq (initialize_app default_content) ops = true) :
    (get_active_template
      (applyOps (initialize_app default_content) ops)).isSome = true := by
  have hinv := storeInv_applyOps ops (initialize_app default_content)
    (storeWF_initialize_app default_content)
  have hmem0 : (initialize_app default_content).active_template_id ∈
      idsOf (initialize_app default_content) := by
    simp [initialize_app, idsOf]
  have hmem := hinv.2 hmem0 h
  obtain ⟨t, ht, hid⟩ := List.mem_map.mp hmem
  exact List.find?_isSome.mpr ⟨t, ht, by simp [hid]⟩

/-- Witness for C1 (amended): create a second template, activate it,
delete the first. -/
theorem claimC1_amended_witness :
    validSeq (initialize_app "D")
      [TemplateOp.create "B" "c", TemplateOp.setActive 2, TemplateOp.delete 1] =
        true ∧
    (get_active_template (applyOps (initialize_app "D")
      [TemplateOp.create "B" "c", TemplateOp.setActive 2,
        TemplateOp.delete 1])).isSome = true :=
  ⟨by decide, claimC1_amended "D"
    [TemplateOp.create "B" "c", TemplateOp.setActive 2, TemplateOp.delete 1]
    (by decide)⟩

/-- C5: deleting the active template when at least two templates exist
repoints the active setting to the lowest remaining id, so `getActive`
afterwards finds an existing row and never the deleted id. -/
theorem claimC5_active_safe_delete (s : StoreState) (i : Nat)
    (hnd : (idsOf s).Nodup) (hact : s.active_template_id = i)
    (hlen : 2 ≤ s.templates.length) :
    ((idsOf s).filter (fun x => x ≠ i)).min? =
      some ((delete_template i s).2.active_template_id) ∧
    (get_active_template (delete_template i s).2).isSome = true ∧
    (delete_template i s).2.active_template_id ≠ i := by
  have hl : ¬ s.templates.length ≤ 1 := by omega
  have hne2 : (s.templates.filter (fun t => t.id ≠ i)).map (fun t => t.id) ≠ [] := by
    have hne := filter_ne_nonempty i s.templates hlen hnd
    simpa using hne
  obtain ⟨m, hm, hmm⟩ := min?_isSome_of_ne_nil _ hne2
  have hdel : (delete_template i s).2 =
      { templates := s.templates.filter (fun t => t.id ≠ i)
        nextId := s.nextId
        active_template_id := m } := by
    unfold delete_template
    rw [if_neg hl]
    dsimp only
    rw [if_pos hact, hm]
  refine ⟨?_, ?_, ?_⟩
  · rw [hdel]
    show ((idsOf s).filter (fun x => x ≠ i)).min? = some m
    rw [show (idsOf s).filter (fun x => x ≠ i) =
      (s.templates.filter (fun t => t.id ≠ i)).map (fun t => t.id) from
        (idsOf_filter i s.templates).symm]
    exact hm
  · rw [hdel]
    obtain ⟨t, ht, hid⟩ := List.mem_map.mp hmm
    exact List.find?_isSome.mpr ⟨t, ht, by simp [hid]⟩
  · rw [hdel]
    show m ≠ i
    obtain ⟨t, ht, hid⟩ := List.mem_map.mp hmm
    have hti : decide (t.id ≠ i) = true := (List.mem_filter.mp ht).2
    rw [← hid]
    simpa using hti

/-- Witness for C5: two templates, the active one (id 1) deleted; the
active setting moves to id 2. -/
theorem claimC5_active_safe_delete_witness :
    ((idsOf ⟨[⟨1, "A", "a"⟩, ⟨2, "B", "b"⟩], 3, 1⟩).Nodup) ∧
    ((⟨[⟨1, "A", "a"⟩, ⟨2, "B", "b"⟩], 3, 1⟩ : StoreState).active_template_id = 1) ∧
    (2 ≤ (⟨[⟨1, "A", "a"⟩, ⟨2, "B", "b"⟩], 3, 1⟩ : StoreState).templates.length) ∧
    (((idsOf ⟨[⟨1, "A", "a"⟩, ⟨2, "B", "b"⟩], 3, 1⟩).filter (fun x => x ≠ 1)).min? =
      some ((delete_template 1 ⟨[⟨1, "A", "a"⟩, ⟨2, "B", "b"⟩], 3, 1⟩).2.active_template_id) ∧
    (get_active_template
      (delete_template 1 ⟨[⟨1, "A", "a"⟩, ⟨2, "B", "b"⟩], 3, 1⟩).2).isSome = true ∧
    (delete_template 1 ⟨[⟨1, "A", "a"⟩, ⟨2, "B", "b"⟩], 3, 1⟩).2.active_template_id ≠ 1) :=
  ⟨by decide, by decide, by decide,
    claimC5_active_safe_delete ⟨[⟨1, "A", "a"⟩, ⟨2, "B", "b"⟩], 3, 1⟩ 1
      (by decide) (by decide) (by decide)⟩

/-- C6: with exactly one template stored, `delete` fails with the
last-template error and changes nothing; and from the bootstrapped state
no operation sequence can empty the template table. -/
theorem claimC6_last_template (s : StoreState) (i : Nat)
    (default_content : String) (ops : List TemplateOp)
    (h1 : s.templates.length = 1) :
    delete_template i s = (.error lastTemplateMsg, s) ∧
    (applyOps (initialize_app default_content) ops).templates ≠ [] := by
  constructor
  · unfold delete_template
    rw [if_pos (by omega)]
  · exact (storeInv_applyOps ops (initialize_app default_content)
      (storeWF_initialize_app default_content)).1.1

/-- Witness for C6: a one-template store and a sample operation sequence. -/
theorem claimC6_last_template_witness :
    ((⟨[⟨1, "A", "a"⟩], 2, 1⟩ : StoreState).templates.length = 1) ∧
    (delete_template 1 ⟨[⟨1, "A", "a"⟩], 2, 1⟩ =
      (.error lastTemplateMsg, ⟨[⟨1, "A", "a"⟩], 2, 1⟩) ∧
    (applyOps (initialize_app "D")
      [TemplateOp.delete 1, TemplateOp.create "B" "c",
        TemplateOp.delete 1]).templates ≠ []) :=
  ⟨by decide,
    claimC6_last_template ⟨[⟨1, "A", "a"⟩], 2, 1⟩ 1 "D"
      [TemplateOp.delete 1, TemplateOp.create "B" "c", TemplateOp.delete 1]
      (by decide)⟩

/-- C9: a group that is open when a `===` line arrives is not flushed into
the unit being closed: the unit is appended without it and the group stays
open across the boundary; its accumulated lines are attached to the new
current unit at the next `---` marker, or at end-of-input. -/
theorem claimC9_open_group_crosses_boundary (s : ParseState) (u : VocabUnit)
    (g : List String) (line : String)
    (hu : s.current_unit = some u) (hg : s.current_group = some g) :
    (startswith (pyStrip line) "===" = true →
      parseStep s line =
        ⟨s.units ++ [u], some ⟨"", []⟩, some g, none⟩) ∧
    (startswith (pyStrip line) "---" = true →
      parseStep s line =
        ⟨s.units, some ⟨u.title, u.groups ++ [g]⟩, some [], s.previous_line⟩) ∧
    finishParse s = s.units ++ [⟨u.title, u.groups ++ [g]⟩] := by
  refine ⟨?_, ?_, ?_⟩
  · intro h
    have hne : pyStrip line ≠ "" :=
      ne_empty_of_startswith (pyStrip line) "===" '=' ['=', '='] rfl h
    simp only [parseStep]
    rw [if_neg hne, if_pos h, hu, hg]
    rfl
  · intro h
    obtain ⟨t, ht⟩ := startswith_toList_cons (pyStrip line) "---" '-' ['-', '-'] rfl h
    have hne : pyStrip line ≠ "" :=
      ne_empty_of_startswith (pyStrip line) "---" '-' ['-', '-'] rfl h
    obtain ⟨hm1, hm2⟩ := dash_not_marker (pyStrip line) t ht
    simp only [parseStep]
    rw [if_neg hne, if_neg (ne_true_of_eq_false hm1), if_neg (ne_true_of_eq_false hm2),
      if_pos h, hg, hu]
  · simp only [finishParse]
    rw [hg, hu]
    rfl

/-- Witness for C9: an open unit `"U"` and an open group `["a"]`; a `===`
line flushes the unit without the group, a `---` line attaches the group
to the current unit, and end-of-input attaches it too. -/
theorem claimC9_open_group_crosses_boundary_witness :
    ((⟨[], some ⟨"U", []⟩, some ["a"], none⟩ : ParseState).current_unit =
      some ⟨"U", []⟩) ∧
    ((⟨[], some ⟨"U", []⟩, some ["a"], none⟩ : ParseState).current_group =
      some ["a"]) ∧
    startswith (pyStrip "=== next") "===" = true ∧
    startswith (pyStrip "---") "---" = true ∧
    parseStep ⟨[], some ⟨"U", []⟩, some ["a"], none⟩ "=== next" =
      ⟨[⟨"U", []⟩], some ⟨"", []⟩, some ["a"], none⟩ ∧
    parseStep ⟨[], some ⟨"U", []⟩, some ["a"], none⟩ "---" =
      ⟨[], some ⟨"U", [["a"]]⟩, some [], none⟩ ∧
    finishParse ⟨[], some ⟨"U", []⟩, some ["a"], none⟩ = [⟨"U", [["a"]]⟩] :=
  ⟨rfl, rfl, by decide, by decide,
    (claimC9_open_group_crosses_boundary ⟨[], some ⟨"U", []⟩, some ["a"], none⟩
      ⟨"U", []⟩ ["a"] "=== next" rfl rfl).1 (by decide),
    (claimC9_open_group_crosses_boundary ⟨[], some ⟨"U", []⟩, some ["a"], none⟩
      ⟨"U", []⟩ ["a"] "---" rfl rfl).2.1 (by decide),
    (claimC9_open_group_crosses_boundary ⟨[], some ⟨"U", []⟩, some ["a"], none⟩
      ⟨"U", []⟩ ["a"] "x" rfl rfl).2.2⟩

end VocabApp
